import Mathlib

/-!
Verification development for the bot-testosterone repository.

The Python sources are shallowly embedded:
* `security_manager.py` — input sanitization, validation, rate limiting,
  security-event logging (`SecurityManager`).
* `validation_layer.py` — progressive-assistance validation (`ValidationLayer`).
* `error_handler.py` — error classification, recovery decisions, retry
  backoff (`ErrorHandler`).
* `conversation_handler.py` — session persistence with TTL
  (`EnhancedConversationHandler`).

Modelling conventions: Python `datetime` timestamps are integers (seconds);
`timedelta(minutes=m)` is `60 * m`, `timedelta(hours=h)` is `3600 * h`.
Python dicts are total functions with an `Option`/default codomain.
Python floats are modelled over `ℚ`.  `datetime.now()` is an explicit
parameter.  File I/O and the standard logger are not modelled; the in-memory
state they mirror is.
-/

namespace Bot

/-! ### A small regex engine

`security_manager.py` matches input against regular expressions with
`re.search(pattern, text_lower, re.IGNORECASE)`.  The patterns use only
literals, character classes (`[^>]`, `\w`, `\s`), `.`, `*`, `+`, `?` and
lazy `*?`; for the Boolean question "does the pattern occur somewhere in
the string" lazy and greedy repetition coincide, so both are `star`.
Matching is by Brzozowski derivatives.  Since the scanned text is lowered
first, `IGNORECASE` is modelled by writing pattern literals in lowercase.
-/

inductive RE where
  | fail : RE
  | eps : RE
  | lit : Char → RE
  | pcls : (Char → Bool) → RE
  | alt : RE → RE → RE
  | cat : RE → RE → RE
  | star : RE → RE

def RE.nullable : RE → Bool
  | .fail => false
  | .eps => true
  | .lit _ => false
  | .pcls _ => false
  | .alt a b => a.nullable || b.nullable
  | .cat a b => a.nullable && b.nullable
  | .star _ => true

def RE.deriv : RE → Char → RE
  | .fail, _ => .fail
  | .eps, _ => .fail
  | .lit c, d => if d = c then .eps else .fail
  | .pcls p, d => if p d then .eps else .fail
  | .alt a b, d => .alt (a.deriv d) (b.deriv d)
  | .cat a b, d =>
    if a.nullable then .alt (.cat (a.deriv d) b) (b.deriv d)
    else .cat (a.deriv d) b
  | .star a, d => .cat (a.deriv d) (.star a)

/-- Does `r` match some prefix of `s` (starting at this position)? -/
def RE.matchesPfx : RE → List Char → Bool
  | r, [] => r.nullable
  | r, c :: cs => r.nullable || (r.deriv c).matchesPfx cs

/-- Model of `re.search`: does `r` match somewhere inside `s`? -/
def RE.found : RE → List Char → Bool
  | r, [] => r.nullable
  | r, c :: cs => r.matchesPfx (c :: cs) || r.found cs

/-- Concatenation of literal characters. -/
def rstr (s : String) : RE :=
  s.data.foldr (fun c r => RE.cat (.lit c) r) .eps

def rplus (a : RE) : RE := .cat a (.star a)

/-- Python `\s` characters (ASCII model). -/
def pySpaceChar (c : Char) : Bool :=
  c = ' ' || c = '\t' || c = '\n' || c = '\r' || c = Char.ofNat 11 || c = Char.ofNat 12

/-- `\s` as a regex. -/
def rws : RE := .pcls pySpaceChar

/-- `\w` as a regex (ASCII model: letters, digits, underscore). -/
def rword : RE := .pcls fun c => c.isAlphanum || c = '_'

/-- `.` — any character except a newline (no DOTALL flag is used). -/
def rdot : RE := .pcls fun c => !(c = '\n')

/-- A negated single-character class `[^c]`. -/
def rnot (c : Char) : RE := .pcls fun d => !(d = c)

/-- `SecurityManager.malicious_patterns`, in source order.  Each entry keeps
the original pattern source string (used in the logged event) next to its
regex.  Literal letters are lowercase because the scanned text is lowered
and matching is case-insensitive. -/
def maliciousPatterns : List (String × RE) :=
  [ ("<script[^>]*>.*?</script>",
      .cat (rstr "<script") (.cat (.star (rnot '>'))
        (.cat (.lit '>') (.cat (.star rdot) (rstr "</script>"))))),
    ("javascript:", rstr "javascript:"),
    ("on\\w+\\s*=", .cat (rstr "on") (.cat (rplus rword) (.cat (.star rws) (.lit '=')))),
    ("<iframe[^>]*>", .cat (rstr "<iframe") (.cat (.star (rnot '>')) (.lit '>'))),
    ("<object[^>]*>", .cat (rstr "<object") (.cat (.star (rnot '>')) (.lit '>'))),
    ("<embed[^>]*>", .cat (rstr "<embed") (.cat (.star (rnot '>')) (.lit '>'))),
    ("eval\\s*\\(", .cat (rstr "eval") (.cat (.star rws) (.lit '('))),
    ("document\\.", rstr "document."),
    ("window\\.", rstr "window."),
    ("\\.innerHTML", rstr ".innerhtml"),
    ("SELECT.*FROM", .cat (rstr "select") (.cat (.star rdot) (rstr "from"))),
    ("UNION.*SELECT", .cat (rstr "union") (.cat (.star rdot) (rstr "select"))),
    ("DROP.*TABLE", .cat (rstr "drop") (.cat (.star rdot) (rstr "table"))),
    ("INSERT.*INTO", .cat (rstr "insert") (.cat (.star rdot) (rstr "into"))),
    ("UPDATE.*SET", .cat (rstr "update") (.cat (.star rdot) (rstr "set"))),
    ("DELETE.*FROM", .cat (rstr "delete") (.cat (.star rdot) (rstr "from"))),
    ("\\.\\./.*", .cat (rstr "../") (.star rdot)),
    ("\\.\\.\\\\.*", .cat (rstr "..\\") (.star rdot)),
    ("/etc/passwd", rstr "/etc/passwd"),
    ("/etc/shadow", rstr "/etc/shadow"),
    ("\\.\\./", rstr "../"),
    ("\\.\\.\\\\", rstr "..\\"),
    ("\\$\\x7bjndi:", rstr "$\x7bjndi:"),
    ("\\x7b\\x7b.*\\x7d\\x7d",
      .cat (rstr "\x7b\x7b") (.cat (.star rdot) (rstr "\x7d\x7d"))),
    ("<%.*%>", .cat (rstr "<%") (.cat (.star rdot) (rstr "%>"))),
    ("<\\?.*\\?>", .cat (rstr "<?") (.cat (.star rdot) (rstr "?>"))) ]

/-- Python `str.lower` (ASCII model). -/
def pyLower (s : List Char) : List Char := s.map Char.toLower

/-- Index of the first malicious pattern found in `text.lower()`
(`None` when no pattern matches).  Mirrors the scan loop of
`SecurityManager._detect_malicious_input`. -/
def detectMaliciousIdx (text : String) : Option Nat :=
  maliciousPatterns.findIdx? fun p => p.2.found (pyLower text.data)

/-! ### String helpers: sanitization and Python number parsing -/

/-- One `str.replace(target, repl)` pass where the target is one character
(as used by `html.escape`). -/
def replaceChar (target : Char) (repl : List Char) : List Char → List Char
  | [] => []
  | c :: cs => (if c = target then repl else [c]) ++ replaceChar target repl cs

/-- Python `html.escape(text)` (with the default `quote=True`): replaces
`&`, `<`, `>`, `"`, `'` in that order. -/
def htmlEscape (s : List Char) : List Char :=
  let s1 := replaceChar '&' "&amp;".data s
  let s2 := replaceChar '<' "&lt;".data s1
  let s3 := replaceChar '>' "&gt;".data s2
  let s4 := replaceChar (Char.ofNat 34) "&quot;".data s3
  replaceChar (Char.ofNat 39) "&#x27;".data s4

/-- Worker for `collapseWs`: `prevSpace` records whether the previous
character belonged to the current whitespace run. -/
def collapseWsAux (prevSpace : Bool) : List Char → List Char
  | [] => []
  | c :: cs =>
    if pySpaceChar c then
      if prevSpace then collapseWsAux true cs
      else ' ' :: collapseWsAux true cs
    else c :: collapseWsAux false cs

/-- Python `re.sub(r'\s+', ' ', text)`: collapse each maximal whitespace
run to a single space. -/
def collapseWs (l : List Char) : List Char := collapseWsAux false l

/-- Python `str.strip()` (ASCII-whitespace model). -/
def stripWs (s : List Char) : List Char :=
  ((s.dropWhile pySpaceChar).reverse.dropWhile pySpaceChar).reverse

/-- `SecurityManager.sanitize_input`: drop null bytes, HTML-escape,
collapse whitespace and strip, truncate to 1000 characters. -/
def sanitize_input (text : String) : String :=
  let s0 := text.data.filter fun c => !(c = Char.ofNat 0)
  let s1 := htmlEscape s0
  let s2 := stripWs (collapseWs s1)
  String.mk (s2.take 1000)

def isAsciiDigit (c : Char) : Bool := '0' ≤ c && c ≤ '9'

def digitsVal (acc : ℕ) : List Char → Option ℕ
  | [] => some acc
  | c :: cs => if isAsciiDigit c then digitsVal (10 * acc + (c.toNat - 48)) cs else none

/-- A nonempty all-digit string read as a natural number. -/
def parseNatDigits : List Char → Option ℕ
  | [] => none
  | l => digitsVal 0 l

/-- Model of Python `int(str)`: strip whitespace, optional sign, decimal
digits.  (Underscore digit grouping and non-ASCII digits are not
modelled.) -/
def pyInt (s : String) : Option ℤ :=
  match stripWs s.data with
  | '+' :: rest => (parseNatDigits rest).map fun n => (n : ℤ)
  | '-' :: rest => (parseNatDigits rest).map fun n => -(n : ℤ)
  | rest => (parseNatDigits rest).map fun n => (n : ℤ)

/-- Unsigned decimal mantissa: `digits`, `digits.digits`, `digits.` or
`.digits`. -/
def parseMantissa (l : List Char) : Option ℚ :=
  let ip := l.takeWhile isAsciiDigit
  let rest := l.dropWhile isAsciiDigit
  match rest with
  | [] =>
    if ip.isEmpty then none
    else (digitsVal 0 ip).map fun n => (n : ℚ)
  | '.' :: fp =>
    if fp.all isAsciiDigit && !(ip.isEmpty && fp.isEmpty) then
      match digitsVal 0 ip, digitsVal 0 fp with
      | some a, some b => some ((a : ℚ) + (b : ℚ) / ((10 : ℚ) ^ fp.length))
      | _, _ => none
    else none
  | _ => none

/-- Model of Python `float(str)` over `ℚ`: strip, optional sign, decimal
mantissa, optional exponent.  (`inf`/`nan` and non-ASCII digits are not
modelled; exact rational arithmetic stands in for binary floating point.) -/
def pyFloat (s : String) : Option ℚ :=
  let t := pyLower (stripWs s.data)
  let mant := t.takeWhile fun c => !(c = 'e')
  let rest := t.dropWhile fun c => !(c = 'e')
  let signedMant : List Char → Option ℚ := fun l =>
    match l with
    | '+' :: r => parseMantissa r
    | '-' :: r => (parseMantissa r).map Neg.neg
    | r => parseMantissa r
  match rest with
  | [] => signedMant mant
  | _ :: ex =>
    let expVal : Option ℤ :=
      match ex with
      | '+' :: r => (parseNatDigits r).map fun n => (n : ℤ)
      | '-' :: r => (parseNatDigits r).map fun n => -(n : ℤ)
      | r => (parseNatDigits r).map fun n => (n : ℤ)
    match signedMant mant, expVal with
    | some m, some e => some (m * (10 : ℚ) ^ e)
    | _, _ => none

/-! ### SecurityManager data model -/

inductive InputType where
  | AGE | BODY_FAT | SCALE_1_5 | YES_NO | EXERCISE_FREQUENCY | FREE_TEXT
deriving DecidableEq, Repr

inductive SecurityEventType where
  | MALICIOUS_INPUT | RATE_LIMIT_EXCEEDED | INVALID_INPUT_REPEATED | SUSPICIOUS_PATTERN
deriving DecidableEq, Repr

inductive SecuritySeverity where
  | LOW | MEDIUM | HIGH | CRITICAL
deriving DecidableEq, Repr

structure ValidationResult where
  is_valid : Bool
  error_message : Option String := none
  help_message : Option String := none
  suggested_format : Option String := none
deriving DecidableEq, Repr

/-- The `additional_data` dict attached to a `SecurityEvent`, structured by
the three shapes that occur in the source. -/
inductive EventData where
  | maliciousData (input : String) (patternSrc : String)
  | rateLimitData (requests_count : ℤ) (block_minutes : ℤ)
  | invalidRepeatedData (error_type : String) (count : ℕ)
deriving DecidableEq, Repr

structure SecurityEvent where
  user_id : ℤ
  event_type : SecurityEventType
  description : String
  timestamp : ℤ
  severity : SecuritySeverity
  additional_data : Option EventData := none
deriving DecidableEq, Repr

structure RateLimitInfo where
  user_id : ℤ
  requests_count : ℤ
  window_start : ℤ
  is_blocked : Bool := false
  block_until : Option ℤ := none
deriving DecidableEq, Repr

/-- The mutable state of a `SecurityManager` instance. -/
structure SMState where
  rate_limit_per_minute : ℤ
  rate_limit_data : ℤ → Option RateLimitInfo
  security_events : List SecurityEvent
  user_error_counts : ℤ → String → ℕ

/-- `SecurityManager.__init__(rate_limit_per_minute=n)`. -/
def SMState.init (n : ℤ) : SMState :=
  ⟨n, fun _ => none, [], fun _ _ => 0⟩

/-- The list-level retention step of `log_security_event`: append, then
keep only the last 1000 events. -/
def logEventsList (events : List SecurityEvent) (e : SecurityEvent) : List SecurityEvent :=
  let es := events ++ [e]
  if 1000 < es.length then es.drop (es.length - 1000) else es

/-- `SecurityManager.log_security_event` (the standard-logger side effect is
not modelled). -/
def log_security_event (st : SMState) (e : SecurityEvent) : SMState :=
  { st with security_events := logEventsList st.security_events e }

/-- The LOW-severity event emitted by `_track_validation_error` when a
counter reaches 5. -/
def invalidRepeatedEvent (uid : ℤ) (error_type : String) (t : ℤ) : SecurityEvent :=
  ⟨uid, .INVALID_INPUT_REPEATED,
    "Repeated validation errors for " ++ error_type ++ ": " ++ toString (5 : ℕ),
    t, .LOW, some (.invalidRepeatedData error_type 5)⟩

/-- `SecurityManager._track_validation_error`. -/
def track_validation_error (st : SMState) (uid : ℤ) (error_type : String) (t : ℤ) : SMState :=
  let n := st.user_error_counts uid error_type + 1
  let st1 : SMState := { st with
    user_error_counts := fun u k =>
      if u = uid ∧ k = error_type then n else st.user_error_counts u k }
  if n = 5 then
    log_security_event st1
      ⟨uid, .INVALID_INPUT_REPEATED,
        "Repeated validation errors for " ++ error_type ++ ": " ++ toString n,
        t, .LOW, some (.invalidRepeatedData error_type n)⟩
  else st1

/-! ### Type-specific validators (`_validate_*`) -/

def validate_age (s : String) (uid t : ℤ) (st : SMState) : ValidationResult × SMState :=
  match pyInt s with
  | some age =>
    if 18 ≤ age ∧ age ≤ 120 then (⟨true, none, none, none⟩, st)
    else
      (⟨false, some "La edad debe estar entre 18 y 120 años.",
        some "Introduce tu edad como un número entero (ej: 25).",
        some "Ejemplo: 30"⟩, track_validation_error st uid "age" t)
  | none =>
    (⟨false, some "Por favor, introduce un número válido para la edad.",
      some "La edad debe ser un número entero entre 18 y 120.",
      some "Ejemplo: 30"⟩, track_validation_error st uid "age" t)

def validate_body_fat (s : String) (uid t : ℤ) (st : SMState) : ValidationResult × SMState :=
  let clean := String.mk (stripWs (s.data.filter fun c => !(c = '%')))
  match pyFloat clean with
  | some fat =>
    if 0 ≤ fat ∧ fat ≤ 50 then (⟨true, none, none, none⟩, st)
    else
      (⟨false, some "El porcentaje de grasa corporal debe estar entre 0% y 50%.",
        some "Introduce un número entre 0 y 50 (sin el símbolo %).",
        some "Ejemplo: 15"⟩, track_validation_error st uid "body_fat" t)
  | none =>
    (⟨false, some "Por favor, introduce un número válido para el porcentaje de grasa corporal.",
      some "Debe ser un número entre 0 y 50.",
      some "Ejemplo: 15"⟩, track_validation_error st uid "body_fat" t)

def validate_scale_1_5 (s : String) (uid t : ℤ) (st : SMState) : ValidationResult × SMState :=
  match pyInt s with
  | some score =>
    if 1 ≤ score ∧ score ≤ 5 then (⟨true, none, none, none⟩, st)
    else
      (⟨false, some "Por favor, introduce un número entre 1 y 5.",
        some "1=Muy bajo/Ninguno, 2=Leve, 3=Moderado, 4=Severo, 5=Muy severo",
        some "Ejemplo: 3"⟩, track_validation_error st uid "scale_1_5" t)
  | none =>
    (⟨false, some "Por favor, introduce solo un número del 1 al 5.",
      some "Debe ser un número entero entre 1 y 5.",
      some "Ejemplo: 3"⟩, track_validation_error st uid "scale_1_5" t)

def validate_yes_no (s : String) (uid t : ℤ) (st : SMState) : ValidationResult × SMState :=
  let tl := String.mk (stripWs (pyLower s.data))
  let valid_yes : List String := ["sí", "si", "yes", "y", "s"]
  let valid_no : List String := ["no", "n"]
  if valid_yes.contains tl ∨ valid_no.contains tl then (⟨true, none, none, none⟩, st)
  else
    (⟨false, some "Por favor, responde 'Sí' o 'No'.",
      some "Respuestas válidas: Sí, Si, No, S, N",
      some "Ejemplo: Sí"⟩, track_validation_error st uid "yes_no" t)

def validate_exercise_frequency (s : String) (uid t : ℤ) (st : SMState) : ValidationResult × SMState :=
  match pyInt s with
  | some freq =>
    if 0 ≤ freq ∧ freq ≤ 7 then (⟨true, none, none, none⟩, st)
    else
      (⟨false, some "La frecuencia de ejercicio debe estar entre 0 y 7 veces por semana.",
        some "Introduce el número de veces que haces ejercicio por semana.",
        some "Ejemplo: 3"⟩, track_validation_error st uid "exercise_frequency" t)
  | none =>
    (⟨false, some "Por favor, introduce un número válido para la frecuencia de ejercicio.",
      some "Debe ser un número entre 0 y 7.",
      some "Ejemplo: 3"⟩, track_validation_error st uid "exercise_frequency" t)

def validate_free_text (s : String) (uid t : ℤ) (st : SMState) : ValidationResult × SMState :=
  if 100 < s.length then
    (⟨false, some "El texto es demasiado largo. Máximo 100 caracteres.",
      some "Por favor, acorta tu respuesta.",
      some "Máximo 100 caracteres"⟩, track_validation_error st uid "free_text" t)
  else if (stripWs s.data).length = 0 then
    (⟨false, some "Por favor, introduce algún texto.",
      some "La respuesta no puede estar vacía.", none⟩,
      track_validation_error st uid "free_text" t)
  else (⟨true, none, none, none⟩, st)

/-- `SecurityManager._detect_malicious_input`: scan and, on the first
match, log a HIGH-severity event carrying a 100-character excerpt of the
raw input. -/
def detect_malicious_input (st : SMState) (text : String) (uid t : ℤ) : Bool × SMState :=
  match detectMaliciousIdx text with
  | some i =>
    let pat := ((maliciousPatterns.getD i ("", .fail))).1
    (true, log_security_event st
      ⟨uid, .MALICIOUS_INPUT, "Malicious pattern detected: " ++ pat, t, .HIGH,
        some (.maliciousData (String.mk (text.data.take 100)) pat)⟩)
  | none => (false, st)

/-- `SecurityManager.validate_input`: malicious-pattern check on the raw
text first, then sanitization, then the type-specific validator. -/
def validate_input (st : SMState) (text : String) (input_type : InputType)
    (uid t : ℤ) : ValidationResult × SMState :=
  match detect_malicious_input st text uid t with
  | (true, st') =>
    (⟨false, some "Entrada no válida detectada.",
      some "Por favor, introduce solo texto normal sin caracteres especiales.",
      none⟩, st')
  | (false, st') =>
    let s := sanitize_input text
    match input_type with
    | .AGE => validate_age s uid t st'
    | .BODY_FAT => validate_body_fat s uid t st'
    | .SCALE_1_5 => validate_scale_1_5 s uid t st'
    | .YES_NO => validate_yes_no s uid t st'
    | .EXERCISE_FREQUENCY => validate_exercise_frequency s uid t st'
    | .FREE_TEXT => validate_free_text s uid t st'

/-- The per-(user, input-type) key under which validators count errors. -/
def inputTypeKey : InputType → String
  | .AGE => "age"
  | .BODY_FAT => "body_fat"
  | .SCALE_1_5 => "scale_1_5"
  | .YES_NO => "yes_no"
  | .EXERCISE_FREQUENCY => "exercise_frequency"
  | .FREE_TEXT => "free_text"

/-- Update of the per-user rate-limit dict. -/
def setRate (st : SMState) (uid : ℤ) (info : RateLimitInfo) : SMState :=
  { st with rate_limit_data := fun u =>
      if u = uid then some info else st.rate_limit_data u }

/-- `SecurityManager.check_rate_limit` at time `t` (seconds):
returns `true` when the request is admitted. -/
def check_rate_limit (st0 : SMState) (uid t : ℤ) : Bool × SMState :=
  let info := (st0.rate_limit_data uid).getD ⟨uid, 0, t, false, none⟩
  let st := setRate st0 uid info
  match info.is_blocked, info.block_until with
  | true, some b =>
    if t < b then (false, st)
    else
      (true, setRate st uid
        { info with is_blocked := false, block_until := none,
                    requests_count := 1, window_start := t })
  | _, _ =>
    let info1 :=
      if 60 < t - info.window_start then
        { info with requests_count := 0, window_start := t,
                    is_blocked := false, block_until := none }
      else info
    let info2 := { info1 with requests_count := info1.requests_count + 1 }
    if st.rate_limit_per_minute < info2.requests_count then
      let block_minutes := min (info2.requests_count - st.rate_limit_per_minute) 60
      let info3 := { info2 with is_blocked := true,
                                block_until := some (t + 60 * block_minutes) }
      (false, log_security_event (setRate st uid info3)
        ⟨uid, .RATE_LIMIT_EXCEEDED,
          "Rate limit exceeded: " ++ toString info2.requests_count ++ " requests in 1 minute",
          t, .MEDIUM, some (.rateLimitData info2.requests_count block_minutes)⟩)
    else (true, setRate st uid info2)

/-- `n` successive `check_rate_limit` calls for `uid`, all at time `t`. -/
def rateCallN (st : SMState) (uid t : ℤ) : ℕ → SMState
  | 0 => st
  | n + 1 => (check_rate_limit (rateCallN st uid t n) uid t).2

/-! ### ValidationLayer (`validation_layer.py`)

The help-text literals in `validation_layer.py` are stored double-encoded
on disk; they are transcribed here in their intended UTF-8 form (the emoji
bytes are corrupted beyond recovery in the source and are transcribed by
intent).  None of these literals feeds back into control flow. -/

inductive QuestionType where
  | ADAM_YES_NO | AMS_SCALE | LIFESTYLE_AGE | LIFESTYLE_BODY_FAT
  | LIFESTYLE_SLEEP_QUALITY | LIFESTYLE_STRESS_LEVEL
  | LIFESTYLE_EXERCISE_FREQUENCY | LIFESTYLE_ALCOHOL_TOBACCO
deriving DecidableEq, Repr

structure ValidationConfig where
  max_retries_before_help : ℕ := 3
  max_retries_before_progressive_help : ℕ := 5
  enable_progressive_assistance : Bool := true
  enable_format_suggestions : Bool := true
deriving DecidableEq, Repr

structure EnhancedValidationResult where
  is_valid : Bool
  error_message : Option String := none
  help_message : Option String := none
  suggested_format : Option String := none
  retry_count : ℕ := 0
  progressive_help : Option String := none
  examples : Option (List String) := none
  is_progressive_help_triggered : Bool := false
deriving DecidableEq, Repr

/-- `ValidationLayer.question_type_mapping` (total: the dict covers every
question type, so the `.get` default `FREE_TEXT` is never used). -/
def question_type_mapping : QuestionType → InputType
  | .ADAM_YES_NO => .YES_NO
  | .AMS_SCALE => .SCALE_1_5
  | .LIFESTYLE_AGE => .AGE
  | .LIFESTYLE_BODY_FAT => .BODY_FAT
  | .LIFESTYLE_SLEEP_QUALITY => .SCALE_1_5
  | .LIFESTYLE_STRESS_LEVEL => .SCALE_1_5
  | .LIFESTYLE_EXERCISE_FREQUENCY => .EXERCISE_FREQUENCY
  | .LIFESTYLE_ALCOHOL_TOBACCO => .YES_NO

def get_format_examples : QuestionType → List String
  | .ADAM_YES_NO => ["Sí", "No", "Si", "S", "N"]
  | .AMS_SCALE => ["1", "2", "3", "4", "5"]
  | .LIFESTYLE_AGE => ["25", "30", "45", "60"]
  | .LIFESTYLE_BODY_FAT => ["15", "20", "25", "12.5"]
  | .LIFESTYLE_SLEEP_QUALITY => ["1", "2", "3", "4", "5"]
  | .LIFESTYLE_STRESS_LEVEL => ["1", "2", "3", "4", "5"]
  | .LIFESTYLE_EXERCISE_FREQUENCY => ["0", "2", "3", "5", "7"]
  | .LIFESTYLE_ALCOHOL_TOBACCO => ["Sí", "No", "Si", "S", "N"]

def get_base_help_message : QuestionType → String
  | .ADAM_YES_NO =>
    "Responde 'Sí' o 'No' a la pregunta.\nRespuestas válidas: Sí, Si, No, S, N"
  | .AMS_SCALE =>
    "Califica del 1 al 5 según la intensidad de los síntomas:\n1 = Ninguno\n2 = Leve\n3 = Moderado\n4 = Severo\n5 = Muy severo"
  | .LIFESTYLE_AGE =>
    "Introduce tu edad como un número entero.\nDebe estar entre 18 y 120 años."
  | .LIFESTYLE_BODY_FAT =>
    "Introduce tu porcentaje de grasa corporal estimado.\nDebe ser un número entre 0 y 50 (sin el símbolo %)."
  | .LIFESTYLE_SLEEP_QUALITY =>
    "Califica la calidad de tu sueño del 1 al 5:\n1 = Muy mala\n2 = Mala\n3 = Regular\n4 = Buena\n5 = Excelente"
  | .LIFESTYLE_STRESS_LEVEL =>
    "Califica tu nivel de estrés del 1 al 5:\n1 = Muy bajo\n2 = Bajo\n3 = Moderado\n4 = Alto\n5 = Muy alto"
  | .LIFESTYLE_EXERCISE_FREQUENCY =>
    "Introduce el número de veces por semana que haces ejercicio de fuerza.\nDebe ser un número entre 0 y 7."
  | .LIFESTYLE_ALCOHOL_TOBACCO =>
    "Responde 'Sí' o 'No' sobre si consumes alcohol o tabaco regularmente.\nRespuestas válidas: Sí, Si, No, S, N"

def get_additional_help : QuestionType → String
  | .ADAM_YES_NO =>
    "💡 Consejo: Si no estás seguro, piensa en tu experiencia reciente. Las preguntas ADAM se refieren a cambios que hayas notado."
  | .AMS_SCALE =>
    "💡 Consejo: Si no experimentas el síntoma, responde '1'. Si lo experimentas intensamente, responde '5'. Para síntomas moderados, usa '2', '3' o '4'."
  | .LIFESTYLE_AGE =>
    "💡 Consejo: Introduce solo números, sin letras ni símbolos. Por ejemplo: 30"
  | .LIFESTYLE_BODY_FAT =>
    "💡 Consejo: Si no conoces tu porcentaje exacto, puedes estimarlo:\n- Muy delgado: 8-12%\n- Delgado: 12-18%\n- Normal: 18-25%\n- Con sobrepeso: 25-35%"
  | .LIFESTYLE_SLEEP_QUALITY =>
    "💡 Consejo: Piensa en qué tan descansado te sientes al despertar y qué tan fácil es para ti conciliar el sueño."
  | .LIFESTYLE_STRESS_LEVEL =>
    "💡 Consejo: Considera tu nivel de estrés promedio en los últimos meses, no solo el día de hoy."
  | .LIFESTYLE_EXERCISE_FREQUENCY =>
    "💡 Consejo: Cuenta solo ejercicios de fuerza como pesas, calistenia, o entrenamientos de resistencia. No incluyas cardio."
  | .LIFESTYLE_ALCOHOL_TOBACCO =>
    "💡 Consejo: 'Regular' significa varias veces por semana. Si es ocasional (una vez al mes o menos), responde 'No'."

def get_progressive_help : QuestionType → String
  | .ADAM_YES_NO =>
    "🆘 Ayuda progresiva:\nParece que tienes dificultades con esta pregunta. Simplemente escribe la letra 'S' para Sí o 'N' para No."
  | .AMS_SCALE =>
    "🆘 Ayuda progresiva:\nEscribe solo un número del 1 al 5. Si no tienes este síntoma, escribe '1'. Si lo tienes muy intenso, escribe '5'."
  | .LIFESTYLE_AGE =>
    "🆘 Ayuda progresiva:\nEscribe solo tu edad como número. Por ejemplo, si tienes treinta años, escribe: 30"
  | .LIFESTYLE_BODY_FAT =>
    "🆘 Ayuda progresiva:\nSi no estás seguro, puedes usar estos valores aproximados:\n- Muy delgado: 10\n- Delgado: 15\n- Normal: 20\n- Con sobrepeso: 30"
  | .LIFESTYLE_SLEEP_QUALITY =>
    "🆘 Ayuda progresiva:\nEscribe un número del 1 al 5:\n1 = Duermo muy mal\n3 = Duermo regular\n5 = Duermo excelente"
  | .LIFESTYLE_STRESS_LEVEL =>
    "🆘 Ayuda progresiva:\nEscribe un número del 1 al 5:\n1 = Muy poco estrés\n3 = Estrés normal\n5 = Mucho estrés"
  | .LIFESTYLE_EXERCISE_FREQUENCY =>
    "🆘 Ayuda progresiva:\nEscribe un número del 0 al 7 (días por semana).\nSi no haces ejercicio de fuerza, escribe: 0"
  | .LIFESTYLE_ALCOHOL_TOBACCO =>
    "🆘 Ayuda progresiva:\nEscribe 'S' si consumes alcohol o tabaco varias veces por semana.\nEscribe 'N' si no consumes o es muy ocasional."

/-- `ValidationLayer._get_specific_guidance` (the question type is a
parameter in the source but is unused by the body). -/
def get_specific_guidance (_q : QuestionType) (retry_count : ℕ) : String :=
  if retry_count = 2 then
    "💭 Recuerda: Solo necesitas una respuesta simple y directa."
  else if retry_count = 3 then
    "⚠️ Atención: Asegúrate de seguir exactamente el formato solicitado."
  else if 4 ≤ retry_count then
    "🔄 Último intento: Si sigues teniendo problemas, puedes usar /cancel para reiniciar."
  else ""

/-- `ValidationLayer.get_help_message`. -/
def get_help_message (cfg : ValidationConfig) (q : QuestionType) (retry_count : ℕ) : String :=
  if cfg.max_retries_before_help ≤ retry_count then
    get_base_help_message q ++ "\n\n" ++ get_additional_help q
  else get_base_help_message q

/-- `ValidationLayer._enhance_validation_result` (the result record is
mutated in place in Python; here the updated record is returned). -/
def enhance_validation_result (cfg : ValidationConfig) (r : EnhancedValidationResult)
    (q : QuestionType) (retry_count : ℕ) : EnhancedValidationResult :=
  let r1 :=
    if cfg.enable_format_suggestions then { r with examples := some (get_format_examples q) }
    else r
  let r2 :=
    if cfg.max_retries_before_help ≤ retry_count then
      { r1 with help_message := some (get_help_message cfg q retry_count) }
    else
      match r1.help_message with
      | none => { r1 with help_message := some (get_base_help_message q) }
      | some _ => r1
  let g := get_specific_guidance q retry_count
  if g = "" then r2
  else
    match r2.help_message with
    | some h => { r2 with help_message := some (h ++ "\n\n" ++ g) }
    | none => { r2 with help_message := some g }

/-- The mutable state of a `ValidationLayer` together with its
`SecurityManager`. -/
structure VLState where
  config : ValidationConfig
  sm : SMState
  user_retry_counts : ℤ → QuestionType → ℕ

def VLState.init (n : ℤ) : VLState :=
  ⟨{}, SMState.init n, fun _ _ => 0⟩

/-- `ValidationLayer.validate_question_response`. -/
def validate_question_response (st : VLState) (user_input : String)
    (q : QuestionType) (uid t : ℤ) : EnhancedValidationResult × VLState :=
  let retry_count := st.user_retry_counts uid q
  let input_type := question_type_mapping q
  let (basic, sm') := validate_input st.sm user_input input_type uid t
  if basic.is_valid then
    let st1 : VLState := { st with
        sm := sm',
        user_retry_counts := fun u k =>
          if u = uid ∧ k = q then 0 else st.user_retry_counts u k }
    ({ is_valid := basic.is_valid, error_message := basic.error_message,
       help_message := basic.help_message, suggested_format := basic.suggested_format,
       retry_count := 0 }, st1)
  else
    let st1 : VLState := { st with
        sm := sm',
        user_retry_counts := fun u k =>
          if u = uid ∧ k = q then st.user_retry_counts u k + 1
          else st.user_retry_counts u k }
    let new_retry_count := retry_count + 1
    let r0 : EnhancedValidationResult :=
      { is_valid := basic.is_valid, error_message := basic.error_message,
        help_message := basic.help_message, suggested_format := basic.suggested_format,
        retry_count := new_retry_count }
    let r1 := enhance_validation_result st.config r0 q new_retry_count
    let r2 :=
      if st.config.enable_progressive_assistance ∧
          st.config.max_retries_before_progressive_help ≤ new_retry_count then
        { r1 with progressive_help := some (get_progressive_help q),
                  is_progressive_help_triggered := true }
      else r1
    (r2, st1)

/-- `n` successive `validate_question_response` calls with the same input. -/
def vqrN (st : VLState) (input : String) (q : QuestionType) (uid t : ℤ) : ℕ → VLState
  | 0 => st
  | n + 1 => (validate_question_response (vqrN st input q uid t n) input q uid t).2

/-! ### ErrorHandler (`error_handler.py`)

Delays are Python floats, modelled over `ℚ`.  The random jitter coefficient
`random.uniform(0.1, 0.3)` is an explicit parameter.  The logging-system
side effects of `handle_error` are not modelled. -/

inductive ErrorType where
  | NETWORK_ERROR | TIMEOUT_ERROR | RATE_LIMIT_ERROR | VALIDATION_ERROR
  | SYSTEM_ERROR | SECURITY_ERROR | USER_ERROR | TELEGRAM_API_ERROR
deriving DecidableEq, Repr

inductive RecoveryAction where
  | RETRY | SKIP | ABORT | FALLBACK | USER_NOTIFICATION
deriving DecidableEq, Repr

structure RetryConfig where
  max_retries : ℕ := 3
  base_delay : ℚ := 1
  max_delay : ℚ := 60
  exponential_base : ℚ := 2
  jitter : Bool := true
deriving DecidableEq, Repr

/-- The exception taxonomy relevant to `ErrorHandler._classify_error`,
by the `isinstance` checks of the source in their order.  `other` stands
for every exception matching none of the listed classes. -/
inductive PyExc where
  | timedOut
  | asyncioTimeout
  | badRequest (msg : String)
  | forbidden
  | chatMigrated
  | networkErr
  | connectionErr
  | valueErr
  | permissionErr
  | other (msg : String)
deriving DecidableEq, Repr

/-- Is `needle` a prefix of `hay`? -/
def listIsPfxOf : List Char → List Char → Bool
  | [], _ => true
  | _ :: _, [] => false
  | a :: as, b :: bs => a = b && listIsPfxOf as bs

/-- Python `needle in hay` on strings. -/
def containsSub (needle : List Char) : List Char → Bool
  | [] => listIsPfxOf needle []
  | c :: cs => listIsPfxOf needle (c :: cs) || containsSub needle cs

/-- `ErrorHandler._classify_error`. -/
def classify_error : PyExc → ErrorType
  | .timedOut => .TIMEOUT_ERROR
  | .asyncioTimeout => .TIMEOUT_ERROR
  | .badRequest msg =>
    if containsSub "rate limit".data (pyLower msg.data) then .RATE_LIMIT_ERROR
    else .TELEGRAM_API_ERROR
  | .forbidden => .TELEGRAM_API_ERROR
  | .chatMigrated => .TELEGRAM_API_ERROR
  | .networkErr => .NETWORK_ERROR
  | .connectionErr => .NETWORK_ERROR
  | .valueErr => .VALIDATION_ERROR
  | .permissionErr => .SECURITY_ERROR
  | .other _ => .SYSTEM_ERROR

/-- `ErrorHandler._determine_recovery_action` (the context contributes only
`attempt_number`). -/
def determine_recovery_action (cfg : RetryConfig) (error_type : ErrorType)
    (attempt_number : ℕ) : RecoveryAction :=
  if cfg.max_retries ≤ attempt_number then
    if error_type = .NETWORK_ERROR ∨ error_type = .TIMEOUT_ERROR ∨
        error_type = .TELEGRAM_API_ERROR then .FALLBACK
    else .ABORT
  else if error_type = .NETWORK_ERROR ∨ error_type = .TIMEOUT_ERROR ∨
      error_type = .TELEGRAM_API_ERROR then .RETRY
  else if error_type = .RATE_LIMIT_ERROR then .RETRY
  else if error_type = .VALIDATION_ERROR ∨ error_type = .USER_ERROR then .USER_NOTIFICATION
  else if error_type = .SECURITY_ERROR then .USER_NOTIFICATION
  else .ABORT

/-- `ErrorHandler.calculate_retry_delay`; `j` is the value drawn by
`random.uniform(0.1, 0.3)` when jitter is enabled. -/
def calculate_retry_delay (cfg : RetryConfig) (attempt_number : ℕ)
    (error_type : ErrorType) (j : ℚ) : ℚ :=
  let delay := cfg.base_delay * cfg.exponential_base ^ (attempt_number - 1)
  let delay := min delay cfg.max_delay
  let delay := if error_type = .RATE_LIMIT_ERROR then max delay 30 else delay
  if cfg.jitter then delay + j * delay else delay

/-- The retry loop of `ErrorHandler.with_retry`'s wrapper, from attempt
`attempt` with `fuel` further attempts available after this one (the
wrapper runs it with `attempt = 1`, `fuel = retries - 1`, so `fuel =
retries - attempt` throughout).  `op n` is the outcome of the wrapped
operation's `n`-th invocation; `js n` the jitter coefficient drawn before
the sleep following attempt `n`.  Returns the overall outcome and the list
of slept delays. -/
def with_retry_aux {α : Type} (cfg : RetryConfig) (op : ℕ → Except PyExc α)
    (js : ℕ → ℚ) (retries : ℕ) : ℕ → ℕ → Except PyExc α × List ℚ
  | attempt, fuel =>
    match op attempt with
    | .ok v => (.ok v, [])
    | .error e =>
      let action := determine_recovery_action cfg (classify_error e) attempt
      if attempt = retries ∨ action ≠ .RETRY then (.error e, [])
      else
        match fuel with
        | 0 => (.error e, [])
        | fuel' + 1 =>
          let d := calculate_retry_delay cfg attempt (classify_error e) (js attempt)
          let rest := with_retry_aux cfg op js retries (attempt + 1) fuel'
          (rest.1, d :: rest.2)

/-- `ErrorHandler.with_retry` applied to an operation, for `retries ≥ 1`
(`with_retry(0)` in Python never invokes the operation and returns `None`;
that degenerate case is outside this model). -/
def with_retry {α : Type} (cfg : RetryConfig) (op : ℕ → Except PyExc α)
    (js : ℕ → ℚ) (retries : ℕ) : Except PyExc α × List ℚ :=
  with_retry_aux cfg op js retries 1 (retries - 1)

/-! ### EnhancedConversationHandler (`conversation_handler.py`)

Timestamps are seconds.  The JSON file behind `_save_data`/`_load_data` is
not modelled (the in-memory map is authoritative in the source as well),
but the expired-entry cleanup pass that `_save_data` performs is. -/

inductive ConversationState where
  | START | ADAM | AMS | LIFESTYLE | RESULTS | COMPLETED
deriving DecidableEq, Repr

/-- JSON-representable values stored in `lifestyle_answers`. -/
inductive JsonVal where
  | jint (n : ℤ)
  | jbool (b : Bool)
  | jstr (s : String)
deriving DecidableEq, Repr

structure UserProgress where
  user_id : ℤ
  current_state : ConversationState
  adam_answers : List Bool
  ams_score : ℤ
  ams_question_index : ℤ
  lifestyle_answers : List (String × JsonVal)
  lifestyle_question_index : ℤ
  start_time : ℤ
  last_activity : ℤ
deriving DecidableEq, Repr

/-- The recognized keys of the `context_data` dict merged by
`save_progress`; an absent key leaves the stored field unchanged. -/
structure ContextData where
  adam_answers : Option (List Bool) := none
  ams_score : Option ℤ := none
  ams_question_index : Option ℤ := none
  lifestyle_answers : Option (List (String × JsonVal)) := none
  lifestyle_question_index : Option ℤ := none
deriving DecidableEq, Repr

/-- `self.ttl_hours = 24` in `__init__`. -/
def ttl_hours : ℤ := 24

/-- The in-memory `_user_data` map of an `EnhancedConversationHandler`. -/
structure ConvState where
  user_data : ℤ → Option UserProgress

/-- `EnhancedConversationHandler._is_data_valid` at time `t`. -/
def is_data_valid (t : ℤ) (p : UserProgress) : Bool :=
  decide (t - ttl_hours * 3600 < p.last_activity)

/-- `EnhancedConversationHandler._cleanup_expired_data` at time `t`. -/
def cleanup_expired_data (st : ConvState) (t : ℤ) : ConvState :=
  ⟨fun u =>
    match st.user_data u with
    | some p => if is_data_valid t p then some p else none
    | none => none⟩

/-- `EnhancedConversationHandler._save_data` at time `t`: the file write is
not modelled; the cleanup pass it starts with is. -/
def save_data (st : ConvState) (t : ℤ) : ConvState :=
  cleanup_expired_data st t

/-- `EnhancedConversationHandler.save_progress` at time `t`. -/
def save_progress (st : ConvState) (uid : ℤ) (state : ConversationState)
    (cd : ContextData) (t : ℤ) : ConvState :=
  let p0 : UserProgress :=
    match st.user_data uid with
    | some p => { p with current_state := state, last_activity := t }
    | none => ⟨uid, state, [], 0, 0, [], 0, t, t⟩
  let p1 : UserProgress := { p0 with
      adam_answers := cd.adam_answers.getD p0.adam_answers,
      ams_score := cd.ams_score.getD p0.ams_score,
      ams_question_index := cd.ams_question_index.getD p0.ams_question_index,
      lifestyle_answers := cd.lifestyle_answers.getD p0.lifestyle_answers,
      lifestyle_question_index :=
        cd.lifestyle_question_index.getD p0.lifestyle_question_index }
  save_data ⟨fun u => if u = uid then some p1 else st.user_data u⟩ t

/-- `EnhancedConversationHandler.load_progress` at time `t`: returns the
loaded progress (if any) and the possibly-mutated store. -/
def load_progress (st : ConvState) (uid t : ℤ) : Option UserProgress × ConvState :=
  match st.user_data uid with
  | none => (none, st)
  | some p =>
    if is_data_valid t p then (some p, st)
    else
      (none, save_data ⟨fun u => if u = uid then none else st.user_data u⟩ t)

/-! ## Theorems -/

/-! ### C10 — bounded retention of security events -/

/-- Sample event for the C10 witness. -/
def sampleEvent : SecurityEvent :=
  ⟨1, .SUSPICIOUS_PATTERN, "sample", 0, .LOW, none⟩

/-- C10: after every call to `log_security_event`, the in-memory
`security_events` list holds at most 1000 events, and it is exactly the
suffix of most-recently-appended events (the oldest are discarded first);
consequently the bound holds after any nonempty sequence of logged
events. -/
theorem security_events_bounded_retention :
    ∀ (st : SMState) (e : SecurityEvent),
      (log_security_event st e).security_events.length ≤ 1000 ∧
      (log_security_event st e).security_events =
        (st.security_events ++ [e]).drop ((st.security_events ++ [e]).length - 1000) ∧
      ∀ evs : List SecurityEvent, evs ≠ [] →
        (evs.foldl log_security_event st).security_events.length ≤ 1000 := by
  have key : ∀ (st : SMState) (e : SecurityEvent),
      (log_security_event st e).security_events.length ≤ 1000 ∧
      (log_security_event st e).security_events =
        (st.security_events ++ [e]).drop ((st.security_events ++ [e]).length - 1000) := by
    intro st e
    unfold log_security_event logEventsList
    by_cases h : 1000 < (st.security_events ++ [e]).length
    · simp only [h, if_true]
      refine ⟨?_, trivial⟩
      rw [List.length_drop]
      omega
    · simp only [h, if_false]
      have h0 : (st.security_events ++ [e]).length - 1000 = 0 := by omega
      rw [h0, List.drop_zero]
      refine ⟨?_, rfl⟩
      simp only [List.length_append, List.length_singleton] at h ⊢
      omega
  intro st e
  refine ⟨(key st e).1, (key st e).2, ?_⟩
  intro evs
  induction evs generalizing st with
  | nil => intro h; exact absurd rfl h
  | cons e' rest ih =>
    intro _
    rcases rest with _ | ⟨e'', rest'⟩
    · simpa using (key st e').1
    · simpa using ih (log_security_event st e') (by simp)

/-- Witness for C10, exercising the nonempty-sequence clause at a concrete
event. -/
theorem security_events_bounded_retention_witness :
    ([sampleEvent].foldl log_security_event (SMState.init 10)).security_events.length ≤ 1000 :=
  (security_events_bounded_retention (SMState.init 10) sampleEvent).2.2 [sampleEvent] (by simp)

/-! ### C3 — TTL expiry predicate of `load_progress` -/

/-- Session sitting exactly at the TTL boundary for the C3 counterexample:
`last_activity = 0`, read at `t = 86400 = 24h`. -/
def boundaryProgress : UserProgress := ⟨5, .AMS, [], 0, 0, [], 0, 0, 0⟩

def boundaryStore : ConvState :=
  ⟨fun u => if u = 5 then some boundaryProgress else none⟩

/-- C3 counterexample: a session whose inactivity equals the TTL exactly
(`now − lastActivityAt = 24h`) satisfies the claim's "still returned"
premise `now − lastActivityAt ≤ TTL`, yet `load_progress` returns absent
and deletes it — the code expires at `now − lastActivityAt ≥ TTL`, not
strictly greater. -/
theorem ttl_boundary_session_deleted :
    86400 - boundaryProgress.last_activity ≤ ttl_hours * 3600 ∧
    (load_progress boundaryStore 5 86400).1 = none ∧
    (load_progress boundaryStore 5 86400).2.user_data 5 = none := by decide

/-- C3 (amended): for every stored session, `load_progress` returns it iff
`now − lastActivityAt < TTL` (strict less-than as the validity predicate);
a session with `now − lastActivityAt ≥ TTL` — including one exactly at the
boundary — is treated as expired, deleted, and reported absent. -/
theorem load_progress_expiry_predicate (st : ConvState) (uid t : ℤ)
    (p : UserProgress) (h : st.user_data uid = some p) :
    ((load_progress st uid t).1 = some p ↔ t - p.last_activity < ttl_hours * 3600) ∧
    (ttl_hours * 3600 ≤ t - p.last_activity →
      (load_progress st uid t).1 = none ∧
      (load_progress st uid t).2.user_data uid = none) := by
  simp only [ttl_hours]
  by_cases hv : t - 24 * 3600 < p.last_activity
  · have hb : is_data_valid t p = true := by
      simp only [is_data_valid, ttl_hours, decide_eq_true_eq]; omega
    refine ⟨?_, fun hge => absurd hv (by omega)⟩
    simp only [load_progress, h, hb, if_true]
    constructor
    · intro _; omega
    · intro _; trivial
  · have hb : is_data_valid t p = false := by
      simp only [is_data_valid, ttl_hours, decide_eq_false_iff_not]; omega
    have hload : load_progress st uid t =
        (none, save_data ⟨fun u => if u = uid then none else st.user_data u⟩ t) := by
      simp only [load_progress, h, hb]
      simp
    rw [hload]
    refine ⟨⟨fun hc => absurd hc (by simp), fun hlt => absurd hlt (by omega)⟩,
      fun _ => ⟨rfl, ?_⟩⟩
    simp [save_data, cleanup_expired_data]

/-- Witness for C3's amended theorem at a concrete store. -/
theorem load_progress_expiry_predicate_witness :
    ((load_progress boundaryStore 5 10).1 = some boundaryProgress ↔
      10 - boundaryProgress.last_activity < ttl_hours * 3600) :=
  (load_progress_expiry_predicate boundaryStore 5 10 boundaryProgress (by decide)).1

/-! ### C9 — save/load round trip -/

/-- C9: `save_progress` immediately followed by `load_progress` for the
same user returns a present session whose state is the saved state, whose
recognized payload fields equal the payload values (or the prior/default
values for absent fields), and whose `last_activity` is the save time. -/
theorem save_then_load_roundtrip (st : ConvState) (uid : ℤ)
    (state : ConversationState) (cd : ContextData) (t : ℤ) :
    let base := (st.user_data uid).getD ⟨uid, state, [], 0, 0, [], 0, t, t⟩
    (load_progress (save_progress st uid state cd t) uid t).1 =
      some { user_id := base.user_id,
             current_state := state,
             adam_answers := cd.adam_answers.getD base.adam_answers,
             ams_score := cd.ams_score.getD base.ams_score,
             ams_question_index := cd.ams_question_index.getD base.ams_question_index,
             lifestyle_answers := cd.lifestyle_answers.getD base.lifestyle_answers,
             lifestyle_question_index :=
               cd.lifestyle_question_index.getD base.lifestyle_question_index,
             start_time := base.start_time,
             last_activity := t } := by
  cases hcase : st.user_data uid with
  | none =>
    simp only [save_progress, save_data, cleanup_expired_data, load_progress, hcase,
      Option.getD_some, Option.getD_none]
    norm_num [is_data_valid, ttl_hours]
  | some p =>
    simp only [save_progress, save_data, cleanup_expired_data, load_progress, hcase,
      Option.getD_some, Option.getD_none]
    norm_num [is_data_valid, ttl_hours]

/-! ### C6 — retry delay formula -/

/-- C6: for every attempt `a ≥ 1` and error kind, the pre-jitter delay is
`min(base_delay * exponential_base^(a-1), max_delay)`, except that the
RATE_LIMIT kind floors the result at 30 seconds; when jitter is enabled a
coefficient `j ∈ [0.1, 0.3]` of the delay is added on top, and (for a
nonnegative delay) is never subtracted. -/
theorem calculate_retry_delay_formula (cfg : RetryConfig) (a : ℕ)
    (et : ErrorType) (j : ℚ) (_ha : 1 ≤ a) (hj1 : 1 / 10 ≤ j) (_hj2 : j ≤ 3 / 10) :
    let pre : ℚ :=
      if et = .RATE_LIMIT_ERROR then
        max (min (cfg.base_delay * cfg.exponential_base ^ (a - 1)) cfg.max_delay) 30
      else min (cfg.base_delay * cfg.exponential_base ^ (a - 1)) cfg.max_delay
    calculate_retry_delay cfg a et j = (if cfg.jitter then pre + j * pre else pre) ∧
    (et = .RATE_LIMIT_ERROR → 30 ≤ pre) ∧
    (0 ≤ pre → cfg.jitter = true → pre ≤ calculate_retry_delay cfg a et j) := by
  intro pre
  have hform : calculate_retry_delay cfg a et j =
      (if cfg.jitter then pre + j * pre else pre) := by
    unfold calculate_retry_delay
    by_cases het : et = .RATE_LIMIT_ERROR <;> simp [pre, het]
  refine ⟨hform, ?_, ?_⟩
  · intro het
    simp only [pre, het, if_true]
    exact le_max_right _ _
  · intro hp hjit
    rw [hform, hjit, if_pos rfl]
    have hjpos : 0 ≤ j := le_trans (by norm_num) hj1
    nlinarith

/-- Witness for C6 at the default config, attempt 1, RATE_LIMIT kind,
jitter coefficient 1/5: the 30-second floor applies and jitter is added. -/
theorem calculate_retry_delay_formula_witness :
    calculate_retry_delay {} 1 .RATE_LIMIT_ERROR (1 / 5) = 30 + (1 / 5) * 30 := by
  have h := (calculate_retry_delay_formula {} 1 .RATE_LIMIT_ERROR (1 / 5)
    (by norm_num) (by norm_num) (by norm_num)).1
  norm_num at h ⊢
  exact h

/-! ### C7 — recovery-action decision table -/

/-- C7: the recovery decision of `_determine_recovery_action`
(the spec names TRANSPORT_API for TELEGRAM_API_ERROR and USER_NOTIFY for
USER_NOTIFICATION): at `attempt ≥ max_retries`, FALLBACK for
NETWORK/TIMEOUT/TELEGRAM_API and ABORT for every other kind; below
`max_retries`, RETRY for NETWORK/TIMEOUT/TELEGRAM_API/RATE_LIMIT,
USER_NOTIFICATION for VALIDATION and SECURITY, and ABORT for SYSTEM. -/
theorem determine_recovery_action_table (cfg : RetryConfig) (a : ℕ) :
    (cfg.max_retries ≤ a →
      determine_recovery_action cfg .NETWORK_ERROR a = .FALLBACK ∧
      determine_recovery_action cfg .TIMEOUT_ERROR a = .FALLBACK ∧
      determine_recovery_action cfg .TELEGRAM_API_ERROR a = .FALLBACK ∧
      ∀ et : ErrorType, et ≠ .NETWORK_ERROR → et ≠ .TIMEOUT_ERROR →
        et ≠ .TELEGRAM_API_ERROR → determine_recovery_action cfg et a = .ABORT) ∧
    (a < cfg.max_retries →
      determine_recovery_action cfg .NETWORK_ERROR a = .RETRY ∧
      determine_recovery_action cfg .TIMEOUT_ERROR a = .RETRY ∧
      determine_recovery_action cfg .TELEGRAM_API_ERROR a = .RETRY ∧
      determine_recovery_action cfg .RATE_LIMIT_ERROR a = .RETRY ∧
      determine_recovery_action cfg .VALIDATION_ERROR a = .USER_NOTIFICATION ∧
      determine_recovery_action cfg .SECURITY_ERROR a = .USER_NOTIFICATION ∧
      determine_recovery_action cfg .SYSTEM_ERROR a = .ABORT) := by
  constructor
  · intro h
    refine ⟨?_, ?_, ?_, ?_⟩
    · simp [determine_recovery_action, h]
    · simp [determine_recovery_action, h]
    · simp [determine_recovery_action, h]
    · intro et h1 h2 h3
      cases et <;> simp_all [determine_recovery_action]
  · intro h
    have h' : ¬ cfg.max_retries ≤ a := not_le.mpr h
    refine ⟨?_, ?_, ?_, ?_, ?_, ?_, ?_⟩ <;>
      simp [determine_recovery_action, h']

/-- Witness for C7 at the default config (`max_retries = 3`). -/
theorem determine_recovery_action_table_witness :
    determine_recovery_action {} .NETWORK_ERROR 3 = .FALLBACK ∧
    determine_recovery_action {} .SYSTEM_ERROR 1 = .ABORT :=
  ⟨((determine_recovery_action_table {} 3).1 (by norm_num)).1,
    ((determine_recovery_action_table {} 1).2 (by norm_num)).2.2.2.2.2.2⟩

/-! ### C8 — `with_retry` re-raises or sleeps and retries -/

/-- C8: when the wrapped operation fails on an attempt, the retry loop
either re-raises exactly the original exception (when the decided action
is not RETRY or this was the final allowed attempt, in particular for
SYSTEM-classified failures at any attempt) or sleeps for the computed
backoff delay and invokes the operation again at the next attempt
number. -/
theorem with_retry_raises_or_sleeps {α : Type} (cfg : RetryConfig)
    (op : ℕ → Except PyExc α) (js : ℕ → ℚ) (retries attempt fuel : ℕ)
    (e : PyExc) (hfail : op attempt = .error e) :
    with_retry cfg op js retries = with_retry_aux cfg op js retries 1 (retries - 1) ∧
    ((attempt = retries ∨
        determine_recovery_action cfg (classify_error e) attempt ≠ .RETRY) →
      with_retry_aux cfg op js retries attempt fuel = (.error e, [])) ∧
    (attempt ≠ retries →
      determine_recovery_action cfg (classify_error e) attempt = .RETRY →
      ∀ f : ℕ, fuel = f + 1 →
      with_retry_aux cfg op js retries attempt fuel =
        ((with_retry_aux cfg op js retries (attempt + 1) f).1,
          calculate_retry_delay cfg attempt (classify_error e) (js attempt) ::
            (with_retry_aux cfg op js retries (attempt + 1) f).2)) := by
  refine ⟨rfl, ?_, ?_⟩
  · intro h
    rw [with_retry_aux, hfail]
    dsimp only
    rw [if_pos h]
  · intro hne hact f hf
    subst hf
    rw [with_retry_aux, hfail]
    dsimp only
    have hcond : ¬(attempt = retries ∨
        determine_recovery_action cfg (classify_error e) attempt ≠ .RETRY) := by
      simp [hne, hact]
    rw [if_neg hcond]

/-- Witness for C8: a SYSTEM-classified failure (unclassified exception)
at the first of three attempts is re-raised unchanged, with no sleep. -/
theorem with_retry_raises_or_sleeps_witness :
    with_retry_aux {} (fun _ => (.error (.other "boom") : Except PyExc ℕ))
      (fun _ => 0) 3 1 2 = (.error (.other "boom"), []) :=
  (with_retry_raises_or_sleeps {} (fun _ => (.error (.other "boom") : Except PyExc ℕ))
    (fun _ => 0) 3 1 2 (.other "boom") rfl).2.1 (Or.inr (by decide))

/-! ### C5 — malicious input is rejected before the validators -/

/-- C5: input matching a malicious pattern is rejected by `validate_input`
at the malicious-pattern stage for every input kind — detection runs on the
raw (unsanitized) text and no type-specific validator runs (the per-kind
error counters are untouched) — with the generic not-permitted message, and
exactly one HIGH-severity MALICIOUS_INPUT event is emitted whose stored
raw-input excerpt is the first at most 100 characters of the raw input. -/
theorem malicious_input_rejected_before_validators (st : SMState) (text : String)
    (it : InputType) (uid t : ℤ) (h : (detectMaliciousIdx text).isSome = true) :
    (validate_input st text it uid t).1 =
      ⟨false, some "Entrada no válida detectada.",
        some "Por favor, introduce solo texto normal sin caracteres especiales.",
        none⟩ ∧
    (validate_input st text it uid t).2.user_error_counts = st.user_error_counts ∧
    (validate_input st text it uid t).2.rate_limit_data = st.rate_limit_data ∧
    ∃ ev : SecurityEvent,
      (validate_input st text it uid t).2.security_events =
        logEventsList st.security_events ev ∧
      ev.event_type = .MALICIOUS_INPUT ∧ ev.severity = .HIGH ∧
      ∃ excerpt patSrc : String,
        ev.additional_data = some (.maliciousData excerpt patSrc) ∧
        excerpt = String.mk (text.data.take 100) ∧ excerpt.length ≤ 100 := by
  obtain ⟨i, hi⟩ := Option.isSome_iff_exists.mp h
  have hd : detect_malicious_input st text uid t =
      (true, log_security_event st
        ⟨uid, .MALICIOUS_INPUT,
          "Malicious pattern detected: " ++ (maliciousPatterns.getD i ("", .fail)).1,
          t, .HIGH,
          some (.maliciousData (String.mk (text.data.take 100))
            ((maliciousPatterns.getD i ("", .fail)).1))⟩) := by
    simp [detect_malicious_input, hi]
  refine ⟨?_, ?_, ?_, ?_⟩
  · simp only [validate_input, hd]
  · simp only [validate_input, hd, log_security_event]
  · simp only [validate_input, hd, log_security_event]
  · refine ⟨⟨uid, .MALICIOUS_INPUT,
      "Malicious pattern detected: " ++ (maliciousPatterns.getD i ("", .fail)).1,
      t, .HIGH, some (.maliciousData (String.mk (text.data.take 100))
        ((maliciousPatterns.getD i ("", .fail)).1))⟩, ?_, rfl, rfl,
      String.mk (text.data.take 100), (maliciousPatterns.getD i ("", .fail)).1,
      rfl, rfl, ?_⟩
    · simp only [validate_input, hd, log_security_event]
    · show (text.data.take 100).length ≤ 100
      rw [List.length_take]
      exact min_le_left _ _

/-- Witness for C5 at the spec's example input. -/
theorem malicious_input_rejected_before_validators_witness :
    (validate_input (SMState.init 10) "<script>alert(1)</script>" .AGE 3 0).1 =
      ⟨false, some "Entrada no válida detectada.",
        some "Por favor, introduce solo texto normal sin caracteres especiales.",
        none⟩ :=
  (malicious_input_rejected_before_validators (SMState.init 10)
    "<script>alert(1)</script>" .AGE 3 0 (by decide)).1

/-! ### C4 — per-kind error counters and the once-at-5 threshold event -/

/-- Exact effect of `_track_validation_error`: the (user, kind) counter is
incremented, and the LOW-severity INVALID_INPUT_REPEATED event is logged
exactly when the incremented counter equals 5. -/
theorem track_validation_error_spec (st : SMState) (uid : ℤ) (k : String) (t : ℤ) :
    (track_validation_error st uid k t).user_error_counts uid k
        = st.user_error_counts uid k + 1 ∧
    (st.user_error_counts uid k + 1 = 5 →
      (track_validation_error st uid k t).security_events =
        logEventsList st.security_events (invalidRepeatedEvent uid k t)) ∧
    (st.user_error_counts uid k + 1 ≠ 5 →
      (track_validation_error st uid k t).security_events = st.security_events) := by
  unfold track_validation_error
  dsimp only
  by_cases h5 : st.user_error_counts uid k + 1 = 5
  · rw [if_pos h5]
    refine ⟨?_, fun _ => ?_, fun hne => absurd h5 hne⟩
    · simp [log_security_event]
    · simp [log_security_event, invalidRepeatedEvent, h5]
  · rw [if_neg h5]
    refine ⟨?_, fun h => absurd h h5, fun _ => rfl⟩
    simp

/-- Lifting of a validator's two possible outcomes (success leaving the
state unchanged, or failure routed through `_track_validation_error`) to
the counter/event conclusion of C4. -/
theorem validatorEffectLift (st : SMState) (out : ValidationResult × SMState)
    (k : String) (uid t : ℤ)
    (heff : (out.1.is_valid = true ∧ out.2 = st) ∨
      (out.1.is_valid = false ∧ out.2 = track_validation_error st uid k t)) :
    (out.1.is_valid = false →
      out.2.user_error_counts uid k = st.user_error_counts uid k + 1 ∧
      (st.user_error_counts uid k + 1 = 5 →
        out.2.security_events =
          logEventsList st.security_events (invalidRepeatedEvent uid k t)) ∧
      (st.user_error_counts uid k + 1 ≠ 5 →
        out.2.security_events = st.security_events)) ∧
    (out.1.is_valid = true → out.2 = st) := by
  rcases heff with ⟨h1, h2⟩ | ⟨h1, h2⟩
  · exact ⟨fun hf => absurd hf (by simp [h1]), fun _ => h2⟩
  · refine ⟨fun _ => ?_, fun ht => absurd ht (by simp [h1])⟩
    rw [h2]
    exact track_validation_error_spec st uid k t

theorem validate_age_effect (s : String) (uid t : ℤ) (st : SMState) :
    ((validate_age s uid t st).1.is_valid = true ∧ (validate_age s uid t st).2 = st) ∨
    ((validate_age s uid t st).1.is_valid = false ∧
      (validate_age s uid t st).2 = track_validation_error st uid "age" t) := by
  cases hp : pyInt s with
  | none => right; simp [validate_age, hp]
  | some v =>
    by_cases hr : 18 ≤ v ∧ v ≤ 120
    · left; simp [validate_age, hp, hr]
    · right; simp [validate_age, hp, hr]

theorem validate_body_fat_effect (s : String) (uid t : ℤ) (st : SMState) :
    ((validate_body_fat s uid t st).1.is_valid = true ∧
      (validate_body_fat s uid t st).2 = st) ∨
    ((validate_body_fat s uid t st).1.is_valid = false ∧
      (validate_body_fat s uid t st).2 = track_validation_error st uid "body_fat" t) := by
  cases hp : pyFloat (String.mk (stripWs (s.data.filter fun c => !(c = '%')))) with
  | none => right; simp [validate_body_fat, hp]
  | some v =>
    by_cases hr : 0 ≤ v ∧ v ≤ 50
    · left; simp [validate_body_fat, hp, hr]
    · right; simp [validate_body_fat, hp, hr]

theorem validate_scale_1_5_effect (s : String) (uid t : ℤ) (st : SMState) :
    ((validate_scale_1_5 s uid t st).1.is_valid = true ∧
      (validate_scale_1_5 s uid t st).2 = st) ∨
    ((validate_scale_1_5 s uid t st).1.is_valid = false ∧
      (validate_scale_1_5 s uid t st).2 = track_validation_error st uid "scale_1_5" t) := by
  cases hp : pyInt s with
  | none => right; simp [validate_scale_1_5, hp]
  | some v =>
    by_cases hr : 1 ≤ v ∧ v ≤ 5
    · left; simp [validate_scale_1_5, hp, hr]
    · right; simp [validate_scale_1_5, hp, hr]

theorem validate_yes_no_effect (s : String) (uid t : ℤ) (st : SMState) :
    ((validate_yes_no s uid t st).1.is_valid = true ∧
      (validate_yes_no s uid t st).2 = st) ∨
    ((validate_yes_no s uid t st).1.is_valid = false ∧
      (validate_yes_no s uid t st).2 = track_validation_error st uid "yes_no" t) := by
  by_cases hr : (["sí", "si", "yes", "y", "s"] : List String).contains
      (String.mk (stripWs (pyLower s.data))) ∨
      (["no", "n"] : List String).contains (String.mk (stripWs (pyLower s.data)))
  · left; simp only [validate_yes_no]; rw [if_pos hr]; exact ⟨rfl, rfl⟩
  · right; simp only [validate_yes_no]; rw [if_neg hr]; exact ⟨rfl, rfl⟩

theorem validate_exercise_frequency_effect (s : String) (uid t : ℤ) (st : SMState) :
    ((validate_exercise_frequency s uid t st).1.is_valid = true ∧
      (validate_exercise_frequency s uid t st).2 = st) ∨
    ((validate_exercise_frequency s uid t st).1.is_valid = false ∧
      (validate_exercise_frequency s uid t st).2 =
        track_validation_error st uid "exercise_frequency" t) := by
  cases hp : pyInt s with
  | none => right; simp [validate_exercise_frequency, hp]
  | some v =>
    by_cases hr : 0 ≤ v ∧ v ≤ 7
    · left; simp [validate_exercise_frequency, hp, hr]
    · right; simp [validate_exercise_frequency, hp, hr]

theorem validate_free_text_effect (s : String) (uid t : ℤ) (st : SMState) :
    ((validate_free_text s uid t st).1.is_valid = true ∧
      (validate_free_text s uid t st).2 = st) ∨
    ((validate_free_text s uid t st).1.is_valid = false ∧
      (validate_free_text s uid t st).2 = track_validation_error st uid "free_text" t) := by
  by_cases h1 : 100 < s.length
  · right; simp [validate_free_text, h1]
  · by_cases h2 : (stripWs s.data).length = 0
    · right; simp [validate_free_text, h1, h2]
    · left; simp [validate_free_text, h1, h2]

/-- C4 (amended): every failure of a type-specific validator — that is,
every invalid result of `validate_input` on input that matches no
malicious pattern — increments the per-(user, kind) error counter by one,
and the LOW-severity INVALID_INPUT_REPEATED event is emitted exactly when
that counter reaches exactly 5 after the increment, never on any other
count (in particular not on the 6th or later failures).  Malicious-pattern
rejections, by contrast, leave every counter untouched
(`malicious_failure_no_counter_increment`). -/
theorem validation_failure_counter_and_threshold_event (st : SMState)
    (text : String) (it : InputType) (uid t : ℤ)
    (hm : detectMaliciousIdx text = none) :
    ((validate_input st text it uid t).1.is_valid = false →
      (validate_input st text it uid t).2.user_error_counts uid (inputTypeKey it)
          = st.user_error_counts uid (inputTypeKey it) + 1 ∧
      (st.user_error_counts uid (inputTypeKey it) + 1 = 5 →
        (validate_input st text it uid t).2.security_events =
          logEventsList st.security_events
            (invalidRepeatedEvent uid (inputTypeKey it) t)) ∧
      (st.user_error_counts uid (inputTypeKey it) + 1 ≠ 5 →
        (validate_input st text it uid t).2.security_events =
          st.security_events)) ∧
    ((validate_input st text it uid t).1.is_valid = true →
      (validate_input st text it uid t).2 = st) := by
  have hd : detect_malicious_input st text uid t = (false, st) := by
    simp [detect_malicious_input, hm]
  cases it <;> simp only [validate_input, hd, inputTypeKey]
  · exact validatorEffectLift st _ "age" uid t
      (validate_age_effect (sanitize_input text) uid t st)
  · exact validatorEffectLift st _ "body_fat" uid t
      (validate_body_fat_effect (sanitize_input text) uid t st)
  · exact validatorEffectLift st _ "scale_1_5" uid t
      (validate_scale_1_5_effect (sanitize_input text) uid t st)
  · exact validatorEffectLift st _ "yes_no" uid t
      (validate_yes_no_effect (sanitize_input text) uid t st)
  · exact validatorEffectLift st _ "exercise_frequency" uid t
      (validate_exercise_frequency_effect (sanitize_input text) uid t st)
  · exact validatorEffectLift st _ "free_text" uid t
      (validate_free_text_effect (sanitize_input text) uid t st)

/-- Witness for C4's amended theorem: one invalid SCALE_1_5 submission from
a fresh state sets the user's `scale_1_5` error counter to 1. -/
theorem validation_failure_counter_witness :
    (validate_input (SMState.init 10) "abc" .SCALE_1_5 3 0).2.user_error_counts
      3 "scale_1_5" = 1 := by
  have h := (validation_failure_counter_and_threshold_event (SMState.init 10)
    "abc" .SCALE_1_5 3 0 (by decide)).1 (by decide)
  simpa [SMState.init] using h.1

/-- C4 counterexample: a malicious-pattern rejection is a validation
failure of `validate_input` that increments no per-kind error counter —
refuting "every validation failure increments the per-user, per-kind error
counter" as stated. -/
theorem malicious_failure_no_counter_increment :
    (validate_input (SMState.init 10) "<script>alert(1)</script>"
        .SCALE_1_5 3 0).1.is_valid = false ∧
    ((validate_input (SMState.init 10) "<script>alert(1)</script>"
        .SCALE_1_5 3 0).2.user_error_counts 3 "age" = 0 ∧
      (validate_input (SMState.init 10) "<script>alert(1)</script>"
        .SCALE_1_5 3 0).2.user_error_counts 3 "body_fat" = 0 ∧
      (validate_input (SMState.init 10) "<script>alert(1)</script>"
        .SCALE_1_5 3 0).2.user_error_counts 3 "scale_1_5" = 0 ∧
      (validate_input (SMState.init 10) "<script>alert(1)</script>"
        .SCALE_1_5 3 0).2.user_error_counts 3 "yes_no" = 0 ∧
      (validate_input (SMState.init 10) "<script>alert(1)</script>"
        .SCALE_1_5 3 0).2.user_error_counts 3 "exercise_frequency" = 0 ∧
      (validate_input (SMState.init 10) "<script>alert(1)</script>"
        .SCALE_1_5 3 0).2.user_error_counts 3 "free_text" = 0) := by decide

/-! ### C2 — progressive-help threshold -/

/-- C2 counterexample: after 5 consecutive invalid AMS_SCALE submissions,
a 6th consecutive invalid submission also returns
`is_progressive_help_triggered = true` (the code triggers at
`retry_count ≥ 5`, not only at exactly 5), refuting "on the 5th failed
result only ... not on later consecutive failures such as the 6th". -/
theorem progressive_help_sixth_failure_triggered :
    (validate_question_response (vqrN (VLState.init 10) "abc" .AMS_SCALE 3 0 5)
        "abc" .AMS_SCALE 3 0).1.is_valid = false ∧
    (validate_question_response (vqrN (VLState.init 10) "abc" .AMS_SCALE 3 0 5)
        "abc" .AMS_SCALE 3 0).1.retry_count = 6 ∧
    (validate_question_response (vqrN (VLState.init 10) "abc" .AMS_SCALE 3 0 5)
        "abc" .AMS_SCALE 3 0).1.is_progressive_help_triggered = true := by decide

/-- C2 (amended): for a fixed (user, question kind) pair starting fresh,
consecutive invalid submissions return
`is_progressive_help_triggered = false` on failures 1 through 4 and
`is_progressive_help_triggered = true` on the 5th and every later
consecutive failure (the threshold is `retry_count ≥ 5`); the next valid
submission returns `retry_count = 0` and resets the per-(user, kind)
counter to 0. -/
theorem progressive_help_threshold_and_reset :
    ((validate_question_response (vqrN (VLState.init 10) "abc" .AMS_SCALE 3 0 0)
        "abc" .AMS_SCALE 3 0).1.is_progressive_help_triggered = false ∧
      (validate_question_response (vqrN (VLState.init 10) "abc" .AMS_SCALE 3 0 1)
        "abc" .AMS_SCALE 3 0).1.is_progressive_help_triggered = false ∧
      (validate_question_response (vqrN (VLState.init 10) "abc" .AMS_SCALE 3 0 2)
        "abc" .AMS_SCALE 3 0).1.is_progressive_help_triggered = false ∧
      (validate_question_response (vqrN (VLState.init 10) "abc" .AMS_SCALE 3 0 3)
        "abc" .AMS_SCALE 3 0).1.is_progressive_help_triggered = false) ∧
    ((validate_question_response (vqrN (VLState.init 10) "abc" .AMS_SCALE 3 0 4)
        "abc" .AMS_SCALE 3 0).1.is_valid = false ∧
      (validate_question_response (vqrN (VLState.init 10) "abc" .AMS_SCALE 3 0 4)
        "abc" .AMS_SCALE 3 0).1.retry_count = 5 ∧
      (validate_question_response (vqrN (VLState.init 10) "abc" .AMS_SCALE 3 0 4)
        "abc" .AMS_SCALE 3 0).1.is_progressive_help_triggered = true) ∧
    (validate_question_response (vqrN (VLState.init 10) "abc" .AMS_SCALE 3 0 5)
        "abc" .AMS_SCALE 3 0).1.is_progressive_help_triggered = true ∧
    ((validate_question_response (vqrN (VLState.init 10) "abc" .AMS_SCALE 3 0 6)
        "3" .AMS_SCALE 3 0).1.is_valid = true ∧
      (validate_question_response (vqrN (VLState.init 10) "abc" .AMS_SCALE 3 0 6)
        "3" .AMS_SCALE 3 0).1.retry_count = 0 ∧
      (validate_question_response (vqrN (VLState.init 10) "abc" .AMS_SCALE 3 0 6)
        "3" .AMS_SCALE 3 0).2.user_retry_counts 3 .AMS_SCALE = 0) := by decide

/-- `_enhance_validation_result` only edits help text and examples: it
never changes validity, the retry count, or the progressive-help flag. -/
theorem enhance_preserves_flags (cfg : ValidationConfig)
    (r : EnhancedValidationResult) (q : QuestionType) (rc : ℕ) :
    (enhance_validation_result cfg r q rc).is_progressive_help_triggered
        = r.is_progressive_help_triggered ∧
    (enhance_validation_result cfg r q rc).is_valid = r.is_valid ∧
    (enhance_validation_result cfg r q rc).retry_count = r.retry_count := by
  unfold enhance_validation_result
  dsimp only
  split_ifs <;> (try split) <;> (try split) <;> simp

/-- General form of C2's threshold semantics, for every layer state, input
and question kind: a failed validation triggers progressive help exactly
when assistance is enabled and the new consecutive-failure count reaches
the threshold (5 by default) — so it stays triggered on later consecutive
failures too — and a successful validation resets the counter to 0. -/
theorem progressive_help_threshold_general (st : VLState) (input : String)
    (q : QuestionType) (uid t : ℤ) :
    ((validate_question_response st input q uid t).1.is_valid = false →
      ((validate_question_response st input q uid t).1.is_progressive_help_triggered
          = true ↔
        st.config.enable_progressive_assistance = true ∧
        st.config.max_retries_before_progressive_help
          ≤ st.user_retry_counts uid q + 1) ∧
      (validate_question_response st input q uid t).2.user_retry_counts uid q
        = st.user_retry_counts uid q + 1 ∧
      (validate_question_response st input q uid t).1.retry_count
        = st.user_retry_counts uid q + 1) ∧
    ((validate_question_response st input q uid t).1.is_valid = true →
      (validate_question_response st input q uid t).2.user_retry_counts uid q = 0 ∧
      (validate_question_response st input q uid t).1.retry_count = 0 ∧
      (validate_question_response st input q uid t).1.is_progressive_help_triggered
        = false) := by
  rcases hvi : validate_input st.sm input (question_type_mapping q) uid t with ⟨basic, sm'⟩
  by_cases hb : basic.is_valid = true
  · have hv : validate_question_response st input q uid t =
        ({ is_valid := basic.is_valid, error_message := basic.error_message,
           help_message := basic.help_message,
           suggested_format := basic.suggested_format, retry_count := 0 },
         { st with
            sm := sm',
            user_retry_counts := fun u k =>
              if u = uid ∧ k = q then 0 else st.user_retry_counts u k }) := by
      simp only [validate_question_response, hvi, hb, if_true]
    rw [hv]
    refine ⟨fun hf => ?_, fun _ => ⟨by simp, rfl, rfl⟩⟩
    dsimp only at hf
    rw [hb] at hf
    cases hf
  · have hbf : basic.is_valid = false := by
      cases hval : basic.is_valid
      · rfl
      · exact absurd hval hb
    have hv : validate_question_response st input q uid t =
        (if st.config.enable_progressive_assistance ∧
            st.config.max_retries_before_progressive_help
              ≤ st.user_retry_counts uid q + 1 then
          { enhance_validation_result st.config
              { is_valid := basic.is_valid, error_message := basic.error_message,
                help_message := basic.help_message,
                suggested_format := basic.suggested_format,
                retry_count := st.user_retry_counts uid q + 1 } q
              (st.user_retry_counts uid q + 1) with
            progressive_help := some (get_progressive_help q),
            is_progressive_help_triggered := true }
         else
          enhance_validation_result st.config
            { is_valid := basic.is_valid, error_message := basic.error_message,
              help_message := basic.help_message,
              suggested_format := basic.suggested_format,
              retry_count := st.user_retry_counts uid q + 1 } q
            (st.user_retry_counts uid q + 1),
         { st with
            sm := sm',
            user_retry_counts := fun u k =>
              if u = uid ∧ k = q then st.user_retry_counts u k + 1
              else st.user_retry_counts u k }) := by
      simp only [validate_question_response, hvi, hbf, Bool.false_eq_true, if_false]
    rw [hv]
    constructor
    · intro _
      by_cases hc : st.config.enable_progressive_assistance = true ∧
          st.config.max_retries_before_progressive_help
            ≤ st.user_retry_counts uid q + 1
      · have hc' : st.config.enable_progressive_assistance ∧
            st.config.max_retries_before_progressive_help
              ≤ st.user_retry_counts uid q + 1 := ⟨hc.1, hc.2⟩
        rw [if_pos hc']
        refine ⟨iff_of_true rfl hc, by simp, ?_⟩
        exact ((enhance_preserves_flags st.config _ q _).2.2)
      · have hc' : ¬(st.config.enable_progressive_assistance ∧
            st.config.max_retries_before_progressive_help
              ≤ st.user_retry_counts uid q + 1) := by
          intro hcon
          exact hc ⟨hcon.1, hcon.2⟩
        rw [if_neg hc']
        refine ⟨?_, by simp, (enhance_preserves_flags st.config _ q _).2.2⟩
        rw [(enhance_preserves_flags st.config _ q _).1]
        simpa using hc
    · intro hval
      rw [apply_ite (fun r : EnhancedValidationResult => r.is_valid)] at hval
      simp only [(enhance_preserves_flags st.config _ q _).2.1] at hval
      rw [hbf] at hval
      simp at hval

/-- Witness for the general C2 threshold theorem at a concrete scenario:
the first invalid AMS_SCALE submission from a fresh state is not yet
progressive (1 < 5) and sets the consecutive-failure count to 1. -/
theorem progressive_help_threshold_general_witness :
    (validate_question_response (VLState.init 10) "abc" .AMS_SCALE 3 0).1.retry_count
      = 1 := by
  have h := (progressive_help_threshold_general (VLState.init 10) "abc"
    .AMS_SCALE 3 0).1 (by decide)
  simpa [VLState.init] using h.2.2

/-! ### C1 — rate limiter block progression -/

/-- An admitted `check_rate_limit` call: an unblocked record with count
`k < N = 10` and a fresh window is admitted and its count incremented. -/
theorem rate_admit_step (st : SMState) (uid t k : ℤ)
    (hN : st.rate_limit_per_minute = 10)
    (h : (st.rate_limit_data uid).getD ⟨uid, 0, t, false, none⟩
        = ⟨uid, k, t, false, none⟩)
    (hk : k < 10) :
    (check_rate_limit st uid t).1 = true ∧
    (check_rate_limit st uid t).2.rate_limit_data uid
      = some ⟨uid, k + 1, t, false, none⟩ ∧
    (check_rate_limit st uid t).2.security_events = st.security_events ∧
    (check_rate_limit st uid t).2.rate_limit_per_minute
      = st.rate_limit_per_minute := by
  have h60 : ¬(60 < t - t) := by omega
  have h10 : ¬((10:ℤ) < k + 1) := by omega
  simp [check_rate_limit, setRate, h, hN, h60, h10]

/-- A blocked `check_rate_limit` call at `t` before `block_until`: the
request is rejected and the record and event log are unchanged. -/
theorem rate_blocked_step (st : SMState) (uid t b : ℤ) (info : RateLimitInfo)
    (h : st.rate_limit_data uid = some info) (hb : info.is_blocked = true)
    (hbu : info.block_until = some b) (ht : t < b) :
    (check_rate_limit st uid t).1 = false ∧
    (check_rate_limit st uid t).2.rate_limit_data uid = some info ∧
    (check_rate_limit st uid t).2.security_events = st.security_events ∧
    (check_rate_limit st uid t).2.rate_limit_per_minute
      = st.rate_limit_per_minute := by
  simp [check_rate_limit, setRate, h, hb, hbu, ht]

/-- The blocking `check_rate_limit` call: an unblocked record with count
exactly `N = 10` is rejected; the count becomes 11, a 1-minute block is set
(`block_until = t + 60`), and one MEDIUM RATE_LIMIT_EXCEEDED event with
`block_minutes = 1` is logged. -/
theorem rate_block_trigger (st : SMState) (uid t : ℤ)
    (hN : st.rate_limit_per_minute = 10)
    (h : (st.rate_limit_data uid).getD ⟨uid, 0, t, false, none⟩
        = ⟨uid, 10, t, false, none⟩) :
    (check_rate_limit st uid t).1 = false ∧
    (check_rate_limit st uid t).2.rate_limit_data uid
      = some ⟨uid, 11, t, true, some (t + 60)⟩ ∧
    (check_rate_limit st uid t).2.security_events =
      logEventsList st.security_events
        ⟨uid, .RATE_LIMIT_EXCEEDED, "Rate limit exceeded: 11 requests in 1 minute",
          t, .MEDIUM, some (.rateLimitData 11 1)⟩ ∧
    (check_rate_limit st uid t).2.rate_limit_per_minute
      = st.rate_limit_per_minute := by
  have h60 : ¬(60 < t - t) := by omega
  have h10 : (10:ℤ) < 10 + 1 := by omega
  have hdesc : "Rate limit exceeded: " ++ toString (11:ℤ) ++
      " requests in 1 minute" = "Rate limit exceeded: 11 requests in 1 minute" := rfl
  have hmin : min ((10:ℤ) + 1 - 10) 60 = 1 := by norm_num
  simp [check_rate_limit, setRate, log_security_event, h, hN, h60, h10, hdesc, hmin]

/-- State after the first `n ≤ 10` calls in one window: all admitted, no
events, count `n`. -/
theorem rateCallN_first_n (uid t : ℤ) :
    ∀ n : ℕ, n ≤ 10 →
      (rateCallN (SMState.init 10) uid t n).rate_limit_per_minute = 10 ∧
      (rateCallN (SMState.init 10) uid t n).security_events = [] ∧
      ((rateCallN (SMState.init 10) uid t n).rate_limit_data uid).getD
          ⟨uid, 0, t, false, none⟩
        = ⟨uid, (n : ℤ), t, false, none⟩ := by
  intro n
  induction n with
  | zero =>
    intro _
    refine ⟨rfl, rfl, ?_⟩
    simp [rateCallN, SMState.init]
  | succ n ih =>
    intro hn
    obtain ⟨hN, hev, hdata⟩ := ih (by omega)
    have hk : ((n : ℕ) : ℤ) < 10 := by exact_mod_cast (by omega : n < 10)
    obtain ⟨_, hd2, he2, hp2⟩ :=
      rate_admit_step (rateCallN (SMState.init 10) uid t n) uid t (n : ℤ) hN hdata hk
    refine ⟨?_, ?_, ?_⟩
    · rw [rateCallN, hp2, hN]
    · rw [rateCallN, he2, hev]
    · rw [rateCallN, hd2]
      simp only [Option.getD_some, RateLimitInfo.mk.injEq]
      refine ⟨trivial, ?_, trivial, trivial, trivial⟩
      push_cast
      ring

/-- From the 11th call on, the user stays blocked with the same 1-minute
block: the record and the single logged event never change while the block
is active (all calls at the same instant `t < t + 60`). -/
theorem rateCallN_blocked_steady (uid t : ℤ) :
    ∀ m : ℕ,
      (rateCallN (SMState.init 10) uid t (11 + m)).rate_limit_per_minute = 10 ∧
      (rateCallN (SMState.init 10) uid t (11 + m)).rate_limit_data uid
        = some ⟨uid, 11, t, true, some (t + 60)⟩ ∧
      (rateCallN (SMState.init 10) uid t (11 + m)).security_events =
        [⟨uid, .RATE_LIMIT_EXCEEDED, "Rate limit exceeded: 11 requests in 1 minute",
          t, .MEDIUM, some (.rateLimitData 11 1)⟩] := by
  intro m
  induction m with
  | zero =>
    obtain ⟨hN, hev, hdata⟩ := rateCallN_first_n uid t 10 (by omega)
    have hdata' : ((rateCallN (SMState.init 10) uid t 10).rate_limit_data uid).getD
        ⟨uid, 0, t, false, none⟩ = ⟨uid, 10, t, false, none⟩ := by
      rw [hdata]; norm_num
    obtain ⟨_, hd2, he2, hp2⟩ :=
      rate_block_trigger (rateCallN (SMState.init 10) uid t 10) uid t hN hdata'
    refine ⟨?_, ?_, ?_⟩
    · show (check_rate_limit (rateCallN (SMState.init 10) uid t 10) uid t).2.rate_limit_per_minute = 10
      rw [hp2, hN]
    · exact hd2
    · show (check_rate_limit (rateCallN (SMState.init 10) uid t 10) uid t).2.security_events = _
      rw [he2, hev]
      simp [logEventsList]
  | succ m ih =>
    obtain ⟨hN, hdata, hev⟩ := ih
    obtain ⟨_, hd2, he2, hp2⟩ :=
      rate_blocked_step (rateCallN (SMState.init 10) uid t (11 + m)) uid t (t + 60)
        ⟨uid, 11, t, true, some (t + 60)⟩ hdata rfl rfl (by omega)
    exact ⟨by rw [show (11 + (m + 1)) = (11 + m) + 1 from rfl, rateCallN, hp2, hN],
      by rw [show (11 + (m + 1)) = (11 + m) + 1 from rfl, rateCallN, hd2],
      by rw [show (11 + (m + 1)) = (11 + m) + 1 from rfl, rateCallN, he2, hev]⟩

/-- C1 (amended): with limit N = 10 and all requests of one identity
arriving within the same 60-second window (modelled at one instant `t`),
the 11th admission check is rejected and records a block of exactly 1
minute (`block_until = t + 60`, event `block_minutes = min(11 − 10, 60) =
1`); the 20th check is also rejected, but by the already-active block:
blocked requests do not increment the count, so no new block is recorded
and the recorded block remains 1 minute (a 10-minute block never
arises). -/
theorem rate_limit_block_progression (uid t : ℤ) :
    (check_rate_limit (rateCallN (SMState.init 10) uid t 10) uid t).1 = false ∧
    (check_rate_limit (rateCallN (SMState.init 10) uid t 10) uid t).2.rate_limit_data uid
      = some ⟨uid, 11, t, true, some (t + 60)⟩ ∧
    (check_rate_limit (rateCallN (SMState.init 10) uid t 10) uid t).2.security_events
      = [⟨uid, .RATE_LIMIT_EXCEEDED, "Rate limit exceeded: 11 requests in 1 minute",
          t, .MEDIUM, some (.rateLimitData 11 1)⟩] ∧
    (check_rate_limit (rateCallN (SMState.init 10) uid t 19) uid t).1 = false ∧
    (check_rate_limit (rateCallN (SMState.init 10) uid t 19) uid t).2.rate_limit_data uid
      = some ⟨uid, 11, t, true, some (t + 60)⟩ ∧
    (check_rate_limit (rateCallN (SMState.init 10) uid t 19) uid t).2.security_events
      = [⟨uid, .RATE_LIMIT_EXCEEDED, "Rate limit exceeded: 11 requests in 1 minute",
          t, .MEDIUM, some (.rateLimitData 11 1)⟩] := by
  obtain ⟨hN, hev, hdata⟩ := rateCallN_first_n uid t 10 (by omega)
  have hdata' : ((rateCallN (SMState.init 10) uid t 10).rate_limit_data uid).getD
      ⟨uid, 0, t, false, none⟩ = ⟨uid, 10, t, false, none⟩ := by
    rw [hdata]; norm_num
  obtain ⟨hr1, hd1, he1, _⟩ :=
    rate_block_trigger (rateCallN (SMState.init 10) uid t 10) uid t hN hdata'
  obtain ⟨hN19, hdata19, hev19⟩ := rateCallN_blocked_steady uid t 8
  obtain ⟨hr2, hd2, he2, _⟩ :=
    rate_blocked_step (rateCallN (SMState.init 10) uid t 19) uid t (t + 60)
      ⟨uid, 11, t, true, some (t + 60)⟩ hdata19 rfl rfl (by omega)
  refine ⟨hr1, hd1, ?_, hr2, hd2, ?_⟩
  · rw [he1, hev]
    simp [logEventsList]
  · rw [he2, hev19]

/-- C1 counterexample: with N = 10 and twenty requests in the same window
(all at `t = 0`, user 7), the 20th request is rejected, but — contrary to
the claim — no block of 10 minutes is recorded: the only recorded block is
the 1-minute one from the 11th request (`block_until = 60`), and the only
RATE_LIMIT_EXCEEDED event carries `block_minutes = 1`. -/
theorem rate_limit_twentieth_no_ten_minute_block :
    (check_rate_limit (rateCallN (SMState.init 10) 7 0 19) 7 0).1 = false ∧
    (rateCallN (SMState.init 10) 7 0 20).security_events =
      [⟨7, .RATE_LIMIT_EXCEEDED, "Rate limit exceeded: 11 requests in 1 minute", 0,
        .MEDIUM, some (.rateLimitData 11 1)⟩] ∧
    (rateCallN (SMState.init 10) 7 0 20).rate_limit_data 7 =
      some ⟨7, 11, 0, true, some 60⟩ := by decide

end Bot
